import Mathlib

/-!
Verification of the selection-and-color-scaling engine of the choropleth map
application (src/App.tsx).  The JavaScript code is shallowly embedded:

* JavaScript numbers are modelled by `JSNum`: a rational together with the
  special values `nan`, `inf` (`Infinity`) and `negInf` (`-Infinity`), with
  the IEEE special-value propagation rules of the JS arithmetic operators
  (division by zero yields `nan` or a signed infinity, `Math.floor` fixes
  the special values, `Math.min()`/`Math.max()` of no arguments yield
  `Infinity`/`-Infinity`, and so on).
* The plain JS object `salesData` is an association list built by
  `objSet`, which keeps the first-insertion key order and overwrites the
  value of an existing key, exactly like JS property assignment.
* React state setters become explicit state passing; the `searchData`
  response handler becomes `loadRows`, the click handler of `onEachState`
  becomes `onStateClick`, `stateStyle` and `interpolateColor` are direct
  transcriptions, and `showLiveboard` / `hideLiveboard` become functions
  from an embed-ref option and a `SyncState` to the new state paired with
  an optional thrown exception.
-/

/-- A JavaScript number: a rational, or one of the IEEE special values
`NaN`, `Infinity`, `-Infinity`. -/
inductive JSNum where
  | num : ℚ → JSNum
  | nan : JSNum
  | inf : JSNum
  | negInf : JSNum
deriving DecidableEq, Repr

namespace JSNum

/-- JS `+` on numbers. -/
def add : JSNum → JSNum → JSNum
  | num a, num b => num (a + b)
  | nan, _ => nan
  | _, nan => nan
  | inf, negInf => nan
  | negInf, inf => nan
  | inf, _ => inf
  | _, inf => inf
  | negInf, _ => negInf
  | _, negInf => negInf

/-- JS `-` on numbers. -/
def sub : JSNum → JSNum → JSNum
  | num a, num b => num (a - b)
  | nan, _ => nan
  | _, nan => nan
  | inf, inf => nan
  | negInf, negInf => nan
  | inf, _ => inf
  | negInf, _ => negInf
  | _, inf => negInf
  | _, negInf => inf

/-- JS `*` on numbers (`0 * Infinity` is `NaN`). -/
def mul : JSNum → JSNum → JSNum
  | num a, num b => num (a * b)
  | nan, _ => nan
  | _, nan => nan
  | num a, inf => if a = 0 then nan else if 0 < a then inf else negInf
  | num a, negInf => if a = 0 then nan else if 0 < a then negInf else inf
  | inf, num b => if b = 0 then nan else if 0 < b then inf else negInf
  | negInf, num b => if b = 0 then nan else if 0 < b then negInf else inf
  | inf, inf => inf
  | inf, negInf => negInf
  | negInf, inf => negInf
  | negInf, negInf => inf

/-- JS `/` on numbers: division by (positive) zero yields `NaN` for a zero
numerator and a signed infinity otherwise; a finite number over an infinity
yields zero; an infinity over an infinity yields `NaN`. -/
def div : JSNum → JSNum → JSNum
  | nan, _ => nan
  | _, nan => nan
  | num a, num b =>
      if b = 0 then (if a = 0 then nan else if 0 < a then inf else negInf)
      else num (a / b)
  | num _, inf => num 0
  | num _, negInf => num 0
  | inf, num b => if 0 ≤ b then inf else negInf
  | negInf, num b => if 0 ≤ b then negInf else inf
  | inf, inf => nan
  | inf, negInf => nan
  | negInf, inf => nan
  | negInf, negInf => nan

/-- JS `Math.floor`: fixes `NaN` and the infinities. -/
def floor : JSNum → JSNum
  | num a => num (Int.floor a)
  | nan => nan
  | inf => inf
  | negInf => negInf

/-- JS truthiness of a number: `0` and `NaN` are falsy, everything else
(including the infinities) is truthy. -/
def truthy : JSNum → Bool
  | num a => decide (a ≠ 0)
  | nan => false
  | inf => true
  | negInf => true

/-- Binary JS `Math.min` (`NaN` contaminates). -/
def min2 : JSNum → JSNum → JSNum
  | nan, _ => nan
  | _, nan => nan
  | num a, num b => num (min a b)
  | inf, b => b
  | a, inf => a
  | negInf, _ => negInf
  | _, negInf => negInf

/-- Binary JS `Math.max` (`NaN` contaminates). -/
def max2 : JSNum → JSNum → JSNum
  | nan, _ => nan
  | _, nan => nan
  | num a, num b => num (max a b)
  | negInf, b => b
  | a, negInf => a
  | inf, _ => inf
  | _, inf => inf

end JSNum

/-- JS `Math.min(...values)`: the fold of binary min with starting value
`Infinity`, so `Math.min()` of an empty spread is `Infinity`. -/
def mathMin (l : List JSNum) : JSNum := l.foldl JSNum.min2 JSNum.inf

/-- JS `Math.max(...values)`: the fold of binary max with starting value
`-Infinity`, so `Math.max()` of an empty spread is `-Infinity`. -/
def mathMax (l : List JSNum) : JSNum := l.foldl JSNum.max2 JSNum.negInf

/-- `interpolateColor` from src/App.tsx (lines 150-160): normalize the value
over `[min, max]` by division and floor each linearly interpolated channel.
The result is the `(red, green, blue)` channel triple of the returned
`rgb(red,green,blue)` string. -/
def interpolateColor (value mn mx : JSNum) : JSNum × JSNum × JSNum :=
  let normalizedValue := (value.sub mn).div (mx.sub mn)
  let red := ((JSNum.num 128).add
    (((JSNum.num 255).sub (JSNum.num 128)).mul normalizedValue)).floor
  let green := ((JSNum.num 64).add
    (((JSNum.num 255).sub (JSNum.num 64)).mul
      ((JSNum.num 1).sub normalizedValue))).floor
  let blue := ((JSNum.num 26).add
    (((JSNum.num 255).sub (JSNum.num 26)).mul
      ((JSNum.num 1).sub normalizedValue))).floor
  (red, green, blue)

/-- A color channel is in range when it is a finite number in `[0, 255]`. -/
def channelInRange : JSNum → Bool
  | .num q => decide (0 ≤ q) && decide (q ≤ 255)
  | _ => false

/-- JS object property assignment `m[k] = v` on a plain object modelled as an
association list: an existing key keeps its (first-insertion) position and
gets the new value, a new key is appended. -/
def objSet (m : List (String × JSNum)) (k : String) (v : JSNum) :
    List (String × JSNum) :=
  if m.any (fun p => p.1 = k) then
    m.map (fun p => if p.1 = k then (k, v) else p)
  else m ++ [(k, v)]

/-- JS object property read `m[k]`: the stored value, or `undefined`
(modelled as `none`) when the key is absent. -/
def objGet (m : List (String × JSNum)) (k : String) : Option JSNum :=
  (m.find? (fun p => p.1 = k)).map (fun p => p.2)

/-- The metric state of the component: the three React state cells
`stateSales`, `minSales`, `maxSales` (src/App.tsx lines 25-27). -/
structure MetricState where
  stateSales : List (String × JSNum)
  minSales : JSNum
  maxSales : JSNum
deriving DecidableEq, Repr

/-- The initial metric state: `useState({})`, `useState(0)`, `useState(0)`
(src/App.tsx lines 25-27). -/
def initialMetricState : MetricState :=
  { stateSales := [], minSales := JSNum.num 0, maxSales := JSNum.num 0 }

/-- The `searchData` response handler (src/App.tsx lines 104-118): build
`salesData` by object assignment row by row, push every row's value onto
`salesValues`, then set the state to the mapping together with
`Math.min(...salesValues)` and `Math.max(...salesValues)`. -/
def loadRows (rows : List (String × JSNum)) : MetricState :=
  let salesData := rows.foldl (fun m r => objSet m r.1 r.2) []
  let salesValues := rows.map (fun r => r.2)
  { stateSales := salesData,
    minSales := mathMin salesValues,
    maxSales := mathMax salesValues }

/-- `feature?.properties?.name || ''` (src/App.tsx lines 131 and 166): a
missing name is replaced by the empty string (an empty-string name is
already the empty string, so `|| ''` is the identity on present names). -/
def nameOrEmpty : Option String → String
  | some s => s
  | none => ""

/-- The `setSelectedStates` updater of the click handler in `onEachState`
(src/App.tsx lines 167-173): if the state is already selected, remove it by
filtering; otherwise append it at the end. -/
def toggle (prevSelectedStates : List String) (stateName : String) :
    List String :=
  if stateName ∈ prevSelectedStates then
    prevSelectedStates.filter (fun name => name ≠ stateName)
  else prevSelectedStates ++ [stateName]

/-- The click handler installed by `onEachState` (src/App.tsx lines
163-176): read the feature name (empty string when missing) and toggle it
in the selection list. -/
def onStateClick (featureName : Option String)
    (prevSelectedStates : List String) : List String :=
  toggle prevSelectedStates (nameOrEmpty featureName)

/-- The fill color of a style: either the `rgb(r,g,b)` string built from
three channel numbers, or a hex string literal such as `'#3388ff'`.  The
two forms are never equal as strings, which the two constructors reflect. -/
inductive FillColor where
  | rgbStr : JSNum → JSNum → JSNum → FillColor
  | hex : String → FillColor
deriving DecidableEq, Repr

/-- The style record returned by `stateStyle` (src/App.tsx lines 140-146). -/
structure Style where
  fillColor : FillColor
  weight : ℚ
  opacity : ℚ
  color : String
  fillOpacity : ℚ
deriving DecidableEq, Repr

/-- `stateStyle` from src/App.tsx (lines 130-147): look the feature's name
up in `stateSales`; a truthy sales value is colored by `interpolateColor`,
otherwise the default `'#3388ff'` is used; a selected state is overridden
to `'#cccccc'`; the remaining style fields are constants. -/
def stateStyle (stateSales : List (String × JSNum))
    (minSales maxSales : JSNum) (selectedStates : List String)
    (featureName : Option String) : Style :=
  let stateName := nameOrEmpty featureName
  let salesValue := objGet stateSales stateName
  let fillColor0 :=
    match salesValue with
    | some v =>
        if v.truthy then
          let c := interpolateColor v minSales maxSales
          FillColor.rgbStr c.1 c.2.1 c.2.2
        else FillColor.hex "#3388ff"
    | none => FillColor.hex "#3388ff"
  let fillColor :=
    if stateName ∈ selectedStates then FillColor.hex "#cccccc" else fillColor0
  { fillColor := fillColor, weight := 2, opacity := 1, color := "white",
    fillOpacity := 7/10 }

/-- A runtime-filter command sent to the liveboard embed:
`HostEvent.UpdateRuntimeFilters` with a column name, the operator
(`RuntimeFilterOp.IN`) and a value list (src/App.tsx lines 74-80, 86-92). -/
inductive EmbedCommand where
  | updateRuntimeFilters (columnName : String) (op : String)
      (values : List String)
deriving DecidableEq, Repr

/-- The state touched by `showLiveboard` / `hideLiveboard`: the z-index of
the panel `div` (a DOM style string written through `ref`), the
`selectedStates` React state, and the list of commands delivered to the
embed so far. -/
structure SyncState where
  zIndex : String
  selectedStates : List String
  sentCommands : List EmbedCommand
deriving DecidableEq, Repr

/-- `showLiveboard` (src/App.tsx lines 70-81): raise the panel's z-index,
then call `embedRef.current.trigger(...)`.  When the embed has not
initialized, `embedRef.current` is `null` and the property access throws a
`TypeError`, modelled as a `some` exception in the second component; the
z-index write before it has already happened and no command is recorded. -/
def showLiveboard (embedCurrent : Option Unit) (s : SyncState) :
    SyncState × Option String :=
  let s1 := { s with zIndex := "99999" }
  match embedCurrent with
  | none => (s1, some "TypeError: Cannot read properties of null")
  | some _ =>
      ({ s1 with sentCommands := s1.sentCommands ++
          [EmbedCommand.updateRuntimeFilters "Store State" "IN"
            s1.selectedStates] }, none)

/-- `hideLiveboard` (src/App.tsx lines 82-94): lower the panel's z-index,
trigger an empty-values filter, then clear `selectedStates`.  When the
embed has not initialized, the trigger access throws before the selection
is cleared. -/
def hideLiveboard (embedCurrent : Option Unit) (s : SyncState) :
    SyncState × Option String :=
  let s1 := { s with zIndex := "0" }
  match embedCurrent with
  | none => (s1, some "TypeError: Cannot read properties of null")
  | some _ =>
      let s2 := { s1 with sentCommands := s1.sentCommands ++
          [EmbedCommand.updateRuntimeFilters "Store State" "IN" []] }
      ({ s2 with selectedStates := [] }, none)

/-- A floored finite channel whose pre-floor value lies in `[0, 255]` is in
range. -/
theorem floorChannelInRange (x : ℚ) (h0 : 0 ≤ x) (h255 : x ≤ 255) :
    channelInRange (JSNum.floor (JSNum.num x)) = true := by
  simp only [JSNum.floor, channelInRange, Bool.and_eq_true, decide_eq_true_eq]
  constructor
  · exact_mod_cast Int.floor_nonneg.mpr h0
  · calc ((⌊x⌋ : ℤ) : ℚ) ≤ x := Int.floor_le x
      _ ≤ 255 := h255

/-- On finite inputs with a nonzero span, `interpolateColor` is the floored
two-stop linear interpolation of the source formula. -/
theorem interpolateColor_num (value mn mx : ℚ) (h : mx - mn ≠ 0) :
    interpolateColor (JSNum.num value) (JSNum.num mn) (JSNum.num mx) =
      (JSNum.floor (JSNum.num
          (128 + (255 - 128) * ((value - mn) / (mx - mn)))),
       JSNum.floor (JSNum.num
          (64 + (255 - 64) * (1 - (value - mn) / (mx - mn)))),
       JSNum.floor (JSNum.num
          (26 + (255 - 26) * (1 - (value - mn) / (mx - mn))))) := by
  simp [interpolateColor, JSNum.sub, JSNum.div, JSNum.mul, JSNum.add, h]

/-- C1: for `load([(A,10),(B,30),(A,20)])` the claim that the derived range
is computed over the surviving mapping values only, i.e. that
`range() == (20,30)`, is false: the handler pushes every row value onto
`salesValues`, so `minSales` is `10`. -/
theorem C1_counterexample :
    ¬ ((loadRows [("A", JSNum.num 10), ("B", JSNum.num 30),
          ("A", JSNum.num 20)]).minSales = JSNum.num 20 ∧
       (loadRows [("A", JSNum.num 10), ("B", JSNum.num 30),
          ("A", JSNum.num 20)]).maxSales = JSNum.num 30) := by
  have h10 : (loadRows [("A", JSNum.num 10), ("B", JSNum.num 30),
      ("A", JSNum.num 20)]).minSales = JSNum.num 10 := by
    norm_num [loadRows, mathMin, mathMax, objSet, JSNum.min2, JSNum.max2]
  rintro ⟨h1, h2⟩
  rw [h10] at h1
  simp only [JSNum.num.injEq] at h1
  norm_num at h1

/-- C1 (amended): for `load([(A,10),(B,30),(A,20)])` the later duplicate row
overwrites the earlier one in the mapping, so `get(A) == 20`, but the
derived range is computed over every loaded row value including the
overwritten ones, so `range() == (10,30)`, not `(20,30)`. -/
theorem C1_overwrite_range :
    objGet (loadRows [("A", JSNum.num 10), ("B", JSNum.num 30),
        ("A", JSNum.num 20)]).stateSales "A" = some (JSNum.num 20) ∧
    (loadRows [("A", JSNum.num 10), ("B", JSNum.num 30),
        ("A", JSNum.num 20)]).minSales = JSNum.num 10 ∧
    (loadRows [("A", JSNum.num 10), ("B", JSNum.num 30),
        ("A", JSNum.num 20)]).maxSales = JSNum.num 30 := by
  refine ⟨by decide, ?_, ?_⟩ <;>
    norm_num [loadRows, mathMin, mathMax, objSet, JSNum.min2, JSNum.max2]

/-- C2: with a degenerate range (`min == max`) the interpolation divides by
zero: at `value == min` all three channels are `NaN`, and at any other
finite value the channels are infinite — never the defined, non-NaN color
the claim requires. -/
theorem C2_degenerate_range_nan :
    interpolateColor (JSNum.num 5) (JSNum.num 5) (JSNum.num 5)
      = (JSNum.nan, JSNum.nan, JSNum.nan) ∧
    interpolateColor (JSNum.num 7) (JSNum.num 5) (JSNum.num 5)
      = (JSNum.inf, JSNum.negInf, JSNum.negInf) := by
  constructor <;>
    norm_num [interpolateColor, JSNum.sub, JSNum.div, JSNum.mul, JSNum.add,
      JSNum.floor]

/-- C5: the claim that loading an empty row sequence gives
`range() == (0,0)` is false: `Math.min()` of an empty spread is `Infinity`,
so `minSales` is `Infinity` (and `maxSales` is `-Infinity`). -/
theorem C5_counterexample :
    ¬ ((loadRows []).minSales = JSNum.num 0 ∧
       (loadRows []).maxSales = JSNum.num 0) := by
  rintro ⟨h1, _⟩
  exact JSNum.noConfusion h1

/-- C5 (amended): loading an empty row sequence leaves the mapping empty
with `get` absent for every region, but sets the range to
`(Infinity, -Infinity)`; the `(0,0)` range is only the initial pre-load
state (which a failed fetch leaves untouched). -/
theorem C5_empty_load :
    (loadRows []).stateSales = [] ∧
    (∀ region, objGet (loadRows []).stateSales region = none) ∧
    (loadRows []).minSales = JSNum.inf ∧
    (loadRows []).maxSales = JSNum.negInf ∧
    initialMetricState.minSales = JSNum.num 0 ∧
    initialMetricState.maxSales = JSNum.num 0 ∧
    initialMetricState.stateSales = [] :=
  ⟨rfl, fun _ => rfl, rfl, rfl, rfl, rfl, rfl⟩

/-- C3: the claim that toggling the same region twice returns the original
ordered list is false: a region removed and re-added moves to the end, so
double-toggling `"A"` on `["A", "B"]` yields `["B", "A"]`. -/
theorem C3_counterexample :
    toggle (toggle ["A", "B"] "A") "A" ≠ ["A", "B"] := by decide

/-- C3 (amended): double-toggling a region preserves membership exactly; it
returns the original list when the region was not selected, and when the
region was selected it returns the list with the region moved to the end. -/
theorem C3_double_toggle (S : List String) (r : String) :
    (∀ x, x ∈ toggle (toggle S r) r ↔ x ∈ S) ∧
    (r ∉ S → toggle (toggle S r) r = S) ∧
    (r ∈ S → toggle (toggle S r) r
        = S.filter (fun name => name ≠ r) ++ [r]) := by
  by_cases hr : r ∈ S
  · have e1 : toggle S r = S.filter (fun name => name ≠ r) := by
      simp [toggle, hr]
    have hnm : r ∉ S.filter (fun name => name ≠ r) := by simp
    have e2 : toggle (toggle S r) r
        = S.filter (fun name => name ≠ r) ++ [r] := by
      rw [e1]; simp [toggle, hnm]
    refine ⟨?_, fun h => absurd hr h, fun _ => e2⟩
    intro x
    rw [e2]
    simp only [List.mem_append, List.mem_filter, List.mem_singleton,
      decide_eq_true_eq]
    constructor
    · rintro (⟨hx, _⟩ | rfl)
      · exact hx
      · exact hr
    · intro hx
      by_cases hxr : x = r
      · exact Or.inr hxr
      · exact Or.inl ⟨hx, hxr⟩
  · have e1 : toggle S r = S ++ [r] := by simp [toggle, hr]
    have hm : r ∈ S ++ [r] := by simp
    have ef : (S ++ [r]).filter (fun name => name ≠ r) = S := by
      rw [List.filter_append]
      have h1 : S.filter (fun name => name ≠ r) = S :=
        List.filter_eq_self.mpr (fun a ha => by
          simp only [decide_eq_true_eq]
          exact fun h => hr (h ▸ ha))
      have h2 : ([r].filter (fun name => name ≠ r) : List String) = [] := by
        simp
      rw [h1, h2, List.append_nil]
    have e2 : toggle (toggle S r) r = S := by
      rw [e1]; simp only [toggle, if_pos hm]; exact ef
    exact ⟨fun x => by rw [e2], fun _ => e2, fun h => absurd h hr⟩

/-- C3 (witness): double-toggling an unselected region restores the list. -/
theorem C3_double_toggle_witness :
    toggle (toggle ["A", "B"] "C") "C" = ["A", "B"] :=
  (C3_double_toggle ["A", "B"] "C").2.1 (by decide)

/-- A single toggle preserves the no-duplicates invariant. -/
theorem toggle_nodup (r : String) {S : List String} (h : S.Nodup) :
    (toggle S r).Nodup := by
  unfold toggle
  split
  · exact h.filter _
  · rename_i hr
    simp only [List.nodup_append, List.nodup_singleton, true_and, and_true]
    refine ⟨h, ?_⟩
    intro a ha hac
    rw [List.mem_singleton] at hac
    exact hr (hac ▸ ha)

/-- A fold of toggles preserves the no-duplicates invariant. -/
theorem foldl_toggle_nodup (clicks : List String) :
    ∀ S : List String, S.Nodup → (clicks.foldl toggle S).Nodup := by
  induction clicks with
  | nil => exact fun _ h => h
  | cons c cs ih => exact fun S h => ih (toggle S c) (toggle_nodup c h)

/-- C9: after any finite sequence of toggles starting from the empty
selection, the selected list contains no duplicate region. -/
theorem C9_toggles_nodup (clicks : List String) :
    (clicks.foldl toggle []).Nodup :=
  foldl_toggle_nodup clicks [] List.nodup_nil

/-- C7: the claim that channels stay within `[0,255]` even when the value
falls outside `[min,max]` is false: there is no clamping, so at
`value = 2` with `min = 0 < 1 = max` the red channel is `382`. -/
theorem C7_counterexample :
    (0 : ℚ) < 1 ∧
    channelInRange
      ((interpolateColor (JSNum.num 2) (JSNum.num 0) (JSNum.num 1)).1)
        = false := by
  constructor
  · norm_num
  · norm_num [interpolateColor, JSNum.sub, JSNum.div, JSNum.mul, JSNum.add,
      JSNum.floor, channelInRange]

/-- C7 (amended): for `min < max` and a value within `[min, max]` every
channel of `interpolateColor` is a finite number in `[0, 255]`; outside
`[min, max]` the channels can leave the range since nothing clamps the
normalized value. -/
theorem C7_channels_in_range (value mn mx : ℚ) (h1 : mn < mx)
    (h2 : mn ≤ value) (h3 : value ≤ mx) :
    channelInRange ((interpolateColor (JSNum.num value) (JSNum.num mn)
        (JSNum.num mx)).1) = true ∧
    channelInRange ((interpolateColor (JSNum.num value) (JSNum.num mn)
        (JSNum.num mx)).2.1) = true ∧
    channelInRange ((interpolateColor (JSNum.num value) (JSNum.num mn)
        (JSNum.num mx)).2.2) = true := by
  have hne : mx - mn ≠ 0 := sub_ne_zero.mpr (ne_of_gt h1)
  have hd : 0 < mx - mn := by linarith
  have ht0 : 0 ≤ (value - mn) / (mx - mn) :=
    div_nonneg (by linarith) (le_of_lt hd)
  have ht1 : (value - mn) / (mx - mn) ≤ 1 := by
    rw [div_le_one hd]; linarith
  rw [interpolateColor_num value mn mx hne]
  refine ⟨floorChannelInRange _ (by nlinarith) (by nlinarith),
    floorChannelInRange _ (by nlinarith) (by nlinarith),
    floorChannelInRange _ (by nlinarith) (by nlinarith)⟩

/-- C7 (witness): at `value = min = 100`, `max = 500` all channels are in
range. -/
theorem C7_channels_in_range_witness :
    channelInRange ((interpolateColor (JSNum.num 100) (JSNum.num 100)
        (JSNum.num 500)).1) = true ∧
    channelInRange ((interpolateColor (JSNum.num 100) (JSNum.num 100)
        (JSNum.num 500)).2.1) = true ∧
    channelInRange ((interpolateColor (JSNum.num 100) (JSNum.num 100)
        (JSNum.num 500)).2.2) = true :=
  C7_channels_in_range 100 100 500 (by norm_num) (by norm_num) (by norm_num)

/-- C4: the claim that a non-selected region whose stored metric value is
`0` is colored by `interpolateColor` is false: `salesValue ? ... : default`
tests JS truthiness, and `0` is falsy, so the region gets the default color
`'#3388ff'` even though the store has an entry for it. -/
theorem C4_counterexample :
    (stateStyle [("A", JSNum.num 0)] (JSNum.num 0) (JSNum.num 10) []
        (some "A")).fillColor
      ≠ FillColor.rgbStr
          ((interpolateColor (JSNum.num 0) (JSNum.num 0) (JSNum.num 10)).1)
          ((interpolateColor (JSNum.num 0) (JSNum.num 0) (JSNum.num 10)).2.1)
          ((interpolateColor (JSNum.num 0) (JSNum.num 0)
            (JSNum.num 10)).2.2) := by
  have hstyle : (stateStyle [("A", JSNum.num 0)] (JSNum.num 0) (JSNum.num 10)
      [] (some "A")).fillColor = FillColor.hex "#3388ff" := by
    norm_num [stateStyle, objGet, nameOrEmpty, JSNum.truthy, List.find?]
  rw [hstyle]
  intro h
  exact FillColor.noConfusion h

/-- C4 (amended): for a non-selected region, `stateStyle` colors by
`interpolateColor` exactly when the stored value is truthy (nonzero,
non-NaN); the default color `'#3388ff'` is returned both when the store has
no entry and when the stored value is `0`. -/
theorem C4_truthy_metric_color (stateSales : List (String × JSNum))
    (minSales maxSales : JSNum) (selectedStates : List String)
    (name : String) (hsel : name ∉ selectedStates) :
    (∀ v : JSNum, objGet stateSales name = some v → v.truthy = true →
      (stateStyle stateSales minSales maxSales selectedStates
          (some name)).fillColor
        = FillColor.rgbStr ((interpolateColor v minSales maxSales).1)
            ((interpolateColor v minSales maxSales).2.1)
            ((interpolateColor v minSales maxSales).2.2)) ∧
    (objGet stateSales name = none →
      (stateStyle stateSales minSales maxSales selectedStates
          (some name)).fillColor = FillColor.hex "#3388ff") ∧
    (objGet stateSales name = some (JSNum.num 0) →
      (stateStyle stateSales minSales maxSales selectedStates
          (some name)).fillColor = FillColor.hex "#3388ff") := by
  refine ⟨?_, ?_, ?_⟩
  · intro v hv htr
    simp [stateStyle, nameOrEmpty, hsel, hv, htr]
  · intro hv
    simp [stateStyle, nameOrEmpty, hsel, hv]
  · intro hv
    simp [stateStyle, nameOrEmpty, hsel, hv, JSNum.truthy]

/-- C4 (witness): the non-selected region `"Ohio"` with value `100` over
the range `[100, 500]` is colored `rgb(128,255,255)`. -/
theorem C4_truthy_metric_color_witness :
    (stateStyle [("Ohio", JSNum.num 100)] (JSNum.num 100) (JSNum.num 500) []
        (some "Ohio")).fillColor
      = FillColor.rgbStr (JSNum.num 128) (JSNum.num 255)
          (JSNum.num 255) := by
  have h := (C4_truthy_metric_color [("Ohio", JSNum.num 100)]
      (JSNum.num 100) (JSNum.num 500) [] "Ohio" (by simp)).1
      (JSNum.num 100) (by decide) (by norm_num [JSNum.truthy])
  rw [h]
  norm_num [interpolateColor, JSNum.sub, JSNum.div, JSNum.mul, JSNum.add,
    JSNum.floor]

/-- C8: a selected region is always colored with the fixed selected color
`'#cccccc'`, whatever the metric store holds for it. -/
theorem C8_selected_color (stateSales : List (String × JSNum))
    (minSales maxSales : JSNum) (selectedStates : List String)
    (featureName : Option String)
    (h : nameOrEmpty featureName ∈ selectedStates) :
    (stateStyle stateSales minSales maxSales selectedStates
        featureName).fillColor = FillColor.hex "#cccccc" := by
  simp [stateStyle, h]

/-- C8 (witness): `"Texas"` is selected and has a metric entry, and is
still colored `'#cccccc'`. -/
theorem C8_selected_color_witness :
    (stateStyle [("Texas", JSNum.num 500)] (JSNum.num 100) (JSNum.num 500)
        ["Texas"] (some "Texas")).fillColor = FillColor.hex "#cccccc" :=
  C8_selected_color [("Texas", JSNum.num 500)] (JSNum.num 100)
    (JSNum.num 500) ["Texas"] (some "Texas") (by decide)

/-- C10: a feature without a name property gets the empty string as its
region id: clicking it toggles `""` in the selection (so a second nameless
click on the empty selection removes the shared entry again), and styling
a nameless feature is exactly styling the region `""`. -/
theorem C10_nameless_empty_id (prev : List String)
    (stateSales : List (String × JSNum)) (minSales maxSales : JSNum)
    (selectedStates : List String) :
    onStateClick none prev = toggle prev "" ∧
    stateStyle stateSales minSales maxSales selectedStates none
      = stateStyle stateSales minSales maxSales selectedStates (some "") ∧
    onStateClick none (onStateClick none []) = [] :=
  ⟨rfl, rfl, by decide⟩

/-- C6: the claim that invoking the filter-sync operations while the embed
is not initialized is a silent no-op is false: `embedRef.current` is `null`
and the `.trigger` access throws, so both operations raise an exception at
a concrete state. -/
theorem C6_counterexample :
    (showLiveboard none ⟨"0", ["Texas"], []⟩).2 ≠ none ∧
    (hideLiveboard none ⟨"0", ["Texas"], []⟩).2 ≠ none := by
  constructor <;> decide

/-- C6 (amended): invoking `showLiveboard` or `hideLiveboard` while the
embed is not initialized throws a `TypeError` to the caller; no filter
command is sent or queued, the z-index write made before the trigger still
takes effect, and in `hideLiveboard` the selection reset is skipped. -/
theorem C6_not_ready_throws (s : SyncState) :
    (showLiveboard none s).2.isSome = true ∧
    (showLiveboard none s).1.sentCommands = s.sentCommands ∧
    (showLiveboard none s).1.zIndex = "99999" ∧
    (showLiveboard none s).1.selectedStates = s.selectedStates ∧
    (hideLiveboard none s).2.isSome = true ∧
    (hideLiveboard none s).1.sentCommands = s.sentCommands ∧
    (hideLiveboard none s).1.zIndex = "0" ∧
    (hideLiveboard none s).1.selectedStates = s.selectedStates :=
  ⟨rfl, rfl, rfl, rfl, rfl, rfl, rfl, rfl⟩
